import Mathlib

/-!
Shallow embedding of the terraform-provider-vsphere resource handlers
(package `vsphere`): the file, host, vNIC and compute-policy CRUD handlers,
the host reconnect decision procedure `shouldReconnect`, the vNIC id
composition/decomposition, and the compute-policy capability name
conversions.  Remote SDK calls (govmomi / vAPI) are modelled as oracle
inputs describing the outcome of each call, in the order the source
performs them; Terraform's `ResourceData` is modelled as a resource id
plus an association list of attribute writes (`d.Set` prepends, `d.Get`
reads the most recent write).  Go `string` values that the source splits
character-by-character are modelled as `List Char`.
-/

namespace VSphereProvider

/-- Outcome classification for a failed remote call, as inspected by the
source: a govmomi `object.DatastoreNoSuchFileError`, a SOAP fault whose
detail is `types.ManagedObjectNotFound`, any other SOAP fault, a vAPI
`errors.NotFound`, or any other error value (carrying its message). -/
inductive RemoteError where
  | datastoreNoSuchFile
  | soapManagedObjectNotFound
  | soapOther (msg : String)
  | vapiNotFound
  | generic (msg : String)
deriving DecidableEq

deriving instance DecidableEq for Except

/-- Models `soap.IsSoapFault err` from `resource_vsphere_host.go`. -/
def isSoapFault : RemoteError → Bool
  | .soapManagedObjectNotFound => true
  | .soapOther _ => true
  | _ => false

/-- Models the type assertion `sf.Detail.Fault.(types.ManagedObjectNotFound)`
succeeding on a SOAP fault. -/
def isManagedObjectNotFoundFault : RemoteError → Bool
  | .soapManagedObjectNotFound => true
  | _ => false

/-- Models the type assertion `err.(object.DatastoreNoSuchFileError)`
succeeding in `resourceVSphereFileRead`. -/
def isDatastoreNoSuchFileFault : RemoteError → Bool
  | .datastoreNoSuchFile => true
  | _ => false

/-- Models the comparison `err.Error() == (errors.NotFound{}.Error())` in
`resourceVSphereComputePolicyRead`. -/
def isVapiNotFound : RemoteError → Bool
  | .vapiNotFound => true
  | _ => false

/-- Rendering of an error value as in Go `err.Error()` (message strings of
the SDK fault types are abbreviated). -/
def RemoteError.render : RemoteError → String
  | .datastoreNoSuchFile => "no such file"
  | .soapManagedObjectNotFound => "managed object not found"
  | .soapOther m => m
  | .vapiNotFound => "not found"
  | .generic m => m

/-- A Terraform attribute value (string, bool or int). -/
inductive Attr where
  | s (v : String)
  | b (v : Bool)
  | i (v : Int)
deriving DecidableEq

/-- Terraform state of one resource: the id (`d.Id()` / `d.SetId`) and the
attribute writes (`d.Set` prepends, `d.Get` reads the first match). -/
structure ResourceState where
  id : String
  attrs : List (String × Attr)
deriving DecidableEq

/-- Models `d.Set(k, v)`. -/
def setAttr (st : ResourceState) (k : String) (v : Attr) : ResourceState :=
  { st with attrs := (k, v) :: st.attrs }

/-- Models `d.Get(k)`: the most recent write for `k`, if any. -/
def getAttr (st : ResourceState) (k : String) : Option Attr :=
  (st.attrs.find? (fun p => p.1 == k)).map (·.2)

/-- Models `d.Get(k).(string)` with Go zero-value default. -/
def getStr (st : ResourceState) (k : String) : String :=
  match getAttr st k with
  | some (.s v) => v
  | _ => ""

/-- Models `d.Get(k).(bool)` with Go zero-value default, for a key
declared in the resource schema. -/
def getBoolAttr (st : ResourceState) (k : String) : Bool :=
  match getAttr st k with
  | some (.b v) => v
  | _ => false

/-- Models `d.Get(k).(bool)` including the schema lookup: for a key
declared in the resource schema, `d.Get` returns the stored value or the
zero value and the type assertion succeeds; for a key absent from the
schema, `d.Get` returns nil and the unchecked `.(bool)` assertion
panics (`none`). -/
def getBoolChecked (schemaKeys : List String) (st : ResourceState)
    (k : String) : Option Bool :=
  if k ∈ schemaKeys then some (getBoolAttr st k) else none

/-- The keys declared by the host resource schema
(`resource_vsphere_host.go`, `resourceVsphereHost`). -/
def hostSchemaKeys : List String :=
  ["cluster", "hostname", "username", "password", "thumbprint", "license",
    "force", "connected"]

/-- Terminal information of a vSphere task (`mo.Task`'s `Info.State` as the
string the source compares against `"success"`, plus the rendered
`Info.Error`). -/
structure TaskInfo where
  state : String
  errorMsg : String
deriving DecidableEq

/-- Models the govmomi task-wait primitive (`task.Wait` /
`task.WaitForResult`): it blocks until the task reaches a terminal state
and returns a non-nil error exactly when that terminal state is not
success. -/
def taskWait (t : TaskInfo) : Option RemoteError :=
  if t.state == "success" then none else some (.generic t.errorMsg)

/-- The host connection state enum `types.HostSystemConnectionState`. -/
inductive HostSystemConnectionState where
  | connected
  | disconnected
  | notResponding
deriving DecidableEq

/-- Embedding of `shouldReconnect` (`resource_vsphere_host.go`): the
sequential early-return branches become an if-else chain; the pair is the
`(int, error)` return value. -/
def shouldReconnect (actual : HostSystemConnectionState)
    (desired reconnectFlag : Bool) : Int × Option RemoteError :=
  if reconnectFlag && desired then (1, none)
  else if desired && !(actual == .connected) then (1, none)
  else if desired && !(actual == .disconnected) && !reconnectFlag then (0, none)
  else if !desired && (actual == .disconnected) then (0, none)
  else if !desired && !(actual == .disconnected) then (-1, none)
  else (255, some (.generic "Unexpected combination of connection states"))

/-- Embedding of Go `strings.Split(s, sep)` for a one-character separator,
over the character list of the string: `splitOnChar c l` is the list of
(possibly empty) chunks of `l` between occurrences of `c`. -/
def splitOnChar (c : Char) : List Char → List (List Char)
  | [] => [[]]
  | x :: xs =>
    let r := splitOnChar c xs
    if x = c then [] :: r
    else
      match r with
      | [] => [[x]]
      | y :: ys => (x :: y) :: ys

theorem splitOnChar_cons (c x : Char) (xs : List Char) :
    splitOnChar c (x :: xs) =
      if x = c then [] :: splitOnChar c xs
      else
        match splitOnChar c xs with
        | [] => [[x]]
        | y :: ys => (x :: y) :: ys := rfl

theorem splitOnChar_ne_nil (c : Char) (l : List Char) : splitOnChar c l ≠ [] := by
  induction l with
  | nil => simp [splitOnChar]
  | cons x xs ih =>
    rw [splitOnChar_cons]
    split
    · simp
    · match h : splitOnChar c xs with
      | [] => simp
      | y :: ys => simp

theorem splitOnChar_of_not_mem (c : Char) (l : List Char) (h : c ∉ l) :
    splitOnChar c l = [l] := by
  induction l with
  | nil => rfl
  | cons x xs ih =>
    have hx : ¬ x = c := fun hc => h (by simp [hc])
    have hxs : c ∉ xs := fun hc => h (List.mem_cons_of_mem _ hc)
    rw [splitOnChar_cons, if_neg hx, ih hxs]

theorem splitOnChar_append_sep (c : Char) (xs t : List Char) (h : c ∉ xs) :
    splitOnChar c (xs ++ c :: t) = xs :: splitOnChar c t := by
  induction xs with
  | nil => rw [List.nil_append, splitOnChar_cons, if_pos rfl]
  | cons x xs ih =>
    have hx : ¬ x = c := fun hc => h (by simp [hc])
    have hxs : c ∉ xs := fun hc => h (List.mem_cons_of_mem _ hc)
    rw [List.cons_append, splitOnChar_cons, if_neg hx, ih hxs]

theorem two_le_length_splitOnChar_append_sep (c : Char) (xs t : List Char) :
    2 ≤ (splitOnChar c (xs ++ c :: t)).length := by
  induction xs with
  | nil =>
    have hpos : 0 < (splitOnChar c t).length :=
      List.length_pos.mpr (splitOnChar_ne_nil c t)
    rw [List.nil_append, splitOnChar_cons, if_pos rfl, List.length_cons]
    omega
  | cons x xs ih =>
    rw [List.cons_append, splitOnChar_cons]
    split
    · rw [List.length_cons]; omega
    · match h : splitOnChar c (xs ++ c :: t) with
      | [] => exact absurd h (splitOnChar_ne_nil c _)
      | y :: ys => rw [h] at ih; simpa using ih

/-- Models the Go indexing `tokens[len(tokens)-1]` in
`capabilityToPolicyType` (total since `strings.Split` never returns an
empty slice). -/
def lastTokD (ts : List (List Char)) : List Char :=
  ts.getD (ts.length - 1) []

theorem lastTokD_cons_of_ne_nil (a : List Char) (r : List (List Char))
    (h : r ≠ []) : lastTokD (a :: r) = lastTokD r := by
  match r, h with
  | b :: l, _ =>
    simp only [lastTokD, List.length_cons, Nat.add_sub_cancel, List.getD_cons_succ]

theorem lastTokD_splitOnChar_append_sep (c : Char) (xs t : List Char)
    (h : c ∉ t) : lastTokD (splitOnChar c (xs ++ c :: t)) = t := by
  induction xs with
  | nil =>
    rw [List.nil_append, splitOnChar_cons, if_pos rfl,
      splitOnChar_of_not_mem c t h]
    rfl
  | cons x xs ih =>
    rw [List.cons_append, splitOnChar_cons]
    split
    · rw [lastTokD_cons_of_ne_nil _ _ (splitOnChar_ne_nil c _)]
      exact ih
    · match hs : splitOnChar c (xs ++ c :: t) with
      | [] => exact absurd hs (splitOnChar_ne_nil c _)
      | y :: ys =>
        have hys : ys ≠ [] := by
          have h2 := two_le_length_splitOnChar_append_sep c xs t
          rw [hs] at h2
          intro hempty
          rw [hempty] at h2
          simp at h2
        rw [hs] at ih
        rw [lastTokD_cons_of_ne_nil _ _ hys]
        rw [lastTokD_cons_of_ne_nil _ _ hys] at ih
        exact ih

/-- The capability namespace string prepended by `policyTypeToCapability`
(`resource_vsphere_compute_policy.go`), as a character list. -/
def capabilityBase : List Char :=
  "com.vmware.vcenter.compute.policies.capabilities.".data

/-- Embedding of `policyTypeToCapability`: prepend the capability
namespace to the policy type. -/
def policyTypeToCapability (policyType : List Char) : List Char :=
  capabilityBase ++ policyType

/-- Embedding of `capabilityToPolicyType`: split the capability name on
`'.'` and take the last token. -/
def capabilityToPolicyType (capability : List Char) : List Char :=
  lastTokD (splitOnChar '.' capability)

/-- Embedding of `fmt.Sprintf("%s_%s", hostID, nicID)` in
`resourceVsphereNicCreate`: the composed Terraform id of a vNIC. -/
def nicIDCompose (hostID nicID : List Char) : List Char :=
  hostID ++ '_' :: nicID

/-- Embedding of the id decomposition in `resourceVsphereNicRead`:
`toks := strings.Split(tfNicID, "_")`, then `toks[0]` and `toks[1]`.
`none` models the Go index-out-of-range panic when fewer than two tokens
exist. -/
def nicIDDecompose (tfNicID : List Char) : Option (List Char × List Char) :=
  match splitOnChar '_' tfNicID with
  | t0 :: t1 :: _ => some (t0, t1)
  | _ => none

/-- The vNIC properties read from the host in `resourceVsphereNicRead`
(fields of `types.HostVirtualNic` the handler writes into state; the
IPv6 flags are modelled as present, as the source dereferences them
unconditionally). -/
structure VnicInfo where
  portgroup : String
  switchUuid : String
  portgroupKey : String
  mtu : Int
  mac : String
  dhcp : Bool
  ipAddress : String
  subnetMask : String
  dhcpV6Enabled : Bool
  autoConfigurationEnabled : Bool
deriving DecidableEq

/-- Embedding of `resourceVsphereNicRead` (`resource_vsphere_vnic.go`):
decompose the id, look the vNIC up (`getVnicFromHost` outcome is the
oracle `vnicRes`); on any lookup error the id is cleared and nil is
returned; on success the vNIC fields are written into state.  The outer
`none` models the Go panic when the id holds no underscore. -/
def resourceVsphereNicRead (vnicRes : Except RemoteError VnicInfo)
    (st : ResourceState) : Option (ResourceState × Option RemoteError) :=
  match nicIDDecompose st.id.data with
  | none => none
  | some _ =>
    match vnicRes with
    | .error _ => some ({ st with id := "" }, none)
    | .ok v =>
      let st := setAttr st "portgroup" (.s v.portgroup)
      let st := setAttr st "distributed_switch_port" (.s v.switchUuid)
      let st := setAttr st "distributed_port_group" (.s v.portgroupKey)
      let st := setAttr st "mtu" (.i v.mtu)
      let st := setAttr st "mac" (.s v.mac)
      let st := setAttr st "ipv4.0.dhcp" (.b v.dhcp)
      let st := setAttr st "ipv4.0.ip" (.s v.ipAddress)
      let st := setAttr st "ipv4.0.netmask" (.s v.subnetMask)
      let st := setAttr st "ipv6.0.dhcp" (.b v.dhcpV6Enabled)
      let st := setAttr st "ipv6.0.autoconfig" (.b v.autoConfigurationEnabled)
      some (st, none)

/-- Embedding of `resourceVSphereFileRead` (`resource_vsphere_file.go`):
oracles are the outcome of `fileDatastores` and of `dds.Stat` on the
destination file.  A `DatastoreNoSuchFileError` from `Stat` clears the id
and yields nil; any other `Stat` error is returned. -/
def resourceVSphereFileRead (fileDatastoresRes statRes : Option RemoteError)
    (st : ResourceState) : ResourceState × Option RemoteError :=
  match fileDatastoresRes with
  | some e => (st, some e)
  | none =>
    match statRes with
    | some e =>
      if isDatastoreNoSuchFileFault e then ({ st with id := "" }, none)
      else (st, some e)
    | none => (st, none)

/-- Embedding of the one-field summary access plus `d.Set` sequence of
`resourceVSphereComputePolicyRead`: the outcomes of
`summaryStruct.String` on each field. -/
structure PolicySummary where
  nameRes : Except RemoteError String
  descriptionRes : Except RemoteError String
  capabilityRes : Except RemoteError String
deriving DecidableEq

/-- Embedding of `resourceVSphereComputePolicyRead`
(`resource_vsphere_compute_policy.go`): `policyClient.Get` outcome is the
oracle.  A `NotFound` error clears the id and yields nil; other errors
are returned; on success name, description and the policy type derived
from the capability are written into state. -/
def resourceVSphereComputePolicyRead
    (getRes : Except RemoteError PolicySummary)
    (st : ResourceState) : ResourceState × Option RemoteError :=
  match getRes with
  | .error e =>
    if isVapiNotFound e then ({ st with id := "" }, none)
    else (st, some e)
  | .ok summary =>
    match summary.nameRes with
    | .error e => (st, some e)
    | .ok nm =>
      let st := setAttr st "name" (.s nm)
      match summary.descriptionRes with
      | .error e => (st, some e)
      | .ok desc =>
        let st := setAttr st "description" (.s desc)
        match summary.capabilityRes with
        | .error e => (st, some e)
        | .ok capability =>
          (setAttr st "policy_type"
            (.s (String.mk (capabilityToPolicyType capability.data))), none)

/-- Oracle outcomes for the remote calls made by `resourceVsphereHostRead`,
in source order: `hostsystem.FromID`, `hostsystem.Properties`, the host's
parent cluster reference (`none` models a nil `Parent`),
`hostsystem.GetConnectionState`, `lm.AssignmentManager`, and
`am.QueryAssigned` (the assigned license keys). -/
structure HostReadEnv where
  fromIDRes : Option RemoteError
  propsRes : Option RemoteError
  parentCluster : Option String
  connStateRes : Except RemoteError HostSystemConnectionState
  assignmentMgrRes : Option RemoteError
  queryAssignedRes : Except RemoteError (List String)
deriving DecidableEq

/-- Embedding of `resourceVsphereHostRead` (`resource_vsphere_host.go`).
A SOAP fault from `FromID` whose detail is `ManagedObjectNotFound` clears
the id and yields nil; any other error is returned.  On the disconnected
branch the source writes the misspelled key `"conencted"`, which the
embedding reproduces verbatim. -/
def resourceVsphereHostRead (env : HostReadEnv) (st : ResourceState) :
    ResourceState × Option RemoteError :=
  if st.id == "" then (st, none)
  else
    match env.fromIDRes with
    | some e =>
      if isSoapFault e then
        if !isManagedObjectNotFoundFault e then (st, some e)
        else ({ st with id := "" }, none)
      else (st, some e)
    | none =>
      match env.propsRes with
      | some e => (st, some e)
      | none =>
        let st :=
          match env.parentCluster with
          | some v => setAttr st "cluster" (.s v)
          | none => setAttr st "cluster" (.s "")
        match env.connStateRes with
        | .error e => (st, some e)
        | .ok connectionState =>
          let st :=
            if connectionState ≠ .disconnected then setAttr st "connected" (.b true)
            else setAttr st "conencted" (.b false)
          match env.assignmentMgrRes with
          | some e => (st, some e)
          | none =>
            match env.queryAssignedRes with
            | .error e => (st, some e)
            | .ok assignedKeys =>
              let licenseKey := getStr st "license"
              let licFound := assignedKeys.any (fun k => k == licenseKey)
              let st := if !licFound then setAttr st "license" (.s "") else st
              (st, none)

/-- Oracle outcomes for the remote calls made by
`resourceVsphereHostCreate`, in source order:
`clustercomputeresource.FromID`, `lm.List` (the known license keys), the
`ccr.AddHost` call error, `task.Properties` (the task's terminal info),
the `to.Info.Result` managed-object-reference string, and the
environment for the final `resourceVsphereHostRead` call. -/
structure HostCreateEnv where
  clusterFromIDRes : Option RemoteError
  licenseListRes : Except RemoteError (List String)
  addHostCallErr : Option RemoteError
  taskPropsRes : Except RemoteError TaskInfo
  taskResultRef : String
  readEnv : HostReadEnv
deriving DecidableEq

/-- Embedding of `resourceVsphereHostCreate` (`resource_vsphere_host.go`).
After the license check the source evaluates
`forcedState := d.Get("forced").(bool)` (line 194); `"forced"` is not a
key of the host schema (which declares `"force"`), so `d.Get` returns nil
and the unchecked assertion panics (`none`) on every execution that
reaches it, before `ccr.AddHost` is called.  The remainder embeds the
source's task flow: the `AddHost` call error is only logged, never
returned, the `task.Wait` return value is discarded, the handler fails
unless the task's terminal state is `"success"`, extracts the host id
from the result reference string (`strings.Split(..., ":")[1]`; `none`
models the Go panic when no colon is present), and delegates to
`resourceVsphereHostRead`. -/
def resourceVsphereHostCreate (env : HostCreateEnv) (st : ResourceState) :
    Option (ResourceState × Option RemoteError) :=
  match env.clusterFromIDRes with
  | some e => some (st, some e)
  | none =>
    match env.licenseListRes with
    | .error e => some (st, some e)
    | .ok knownKeys =>
      let licenseKey := getStr st "license"
      let licFound := knownKeys.any (fun k => k == licenseKey)
      if !licFound then
        some (st, some (.generic ("license key supplied (" ++ licenseKey ++
          ") did not match against known license keys")))
      else
        match getBoolChecked hostSchemaKeys st "forced" with
        | none => none
        | some forcedState =>
          let _ := forcedState
          let _ := env.addHostCallErr
          match env.taskPropsRes with
          | .error e => some (st, some e)
          | .ok taskInfo =>
            if taskInfo.state != "success" then
              some (st, some (.generic ("Host addition failed. " ++
                taskInfo.errorMsg)))
            else
              match splitOnChar ':' env.taskResultRef.data with
              | _ :: hostIDChars :: _ =>
                some (resourceVsphereHostRead env.readEnv
                  { st with id := String.mk hostIDChars })
              | _ => none

/-- Embedding of `handleDisconnect` (`resource_vsphere_host.go`): the
`host.Disconnect` call error, then `task.Wait` on the launched task, then
`task.Properties`, then the `"success"` check on the terminal state. -/
def handleDisconnect (st : ResourceState)
    (disconnectCallErr : Option RemoteError) (task : TaskInfo)
    (taskPropsRes : Option RemoteError) : Option RemoteError :=
  match disconnectCallErr with
  | some e => some e
  | none =>
    match taskWait task with
    | some e =>
      some (.generic ("Error while waiting for host (" ++ st.id ++
        ") to disconnect: " ++ e.render))
    | none =>
      match taskPropsRes with
      | some e => some e
      | none =>
        if task.state != "success" then
          some (.generic ("Error while disconnecting host(" ++ st.id ++ "): " ++
            task.errorMsg))
        else none

/-- Oracle outcomes for the remote calls made by
`resourceVSphereFileUpdate`, in source order: `fileOldDatastores`,
`fileDatastores`, `getDatacenter` on the old and new datastore paths, and
the `fm.MoveDatastoreFile` call error. -/
structure FileUpdateEnv where
  oldDatastoresRes : Option RemoteError
  datastoresRes : Option RemoteError
  oldDatacenterRes : Option RemoteError
  datacenterRes : Option RemoteError
  moveCallErr : Option RemoteError
deriving DecidableEq

/-- Embedding of `resourceVSphereFileUpdate` (`resource_vsphere_file.go`):
after the lookups and the `MoveDatastoreFile` call, the handler blocks on
`task.WaitForResult` and returns its error (non-nil exactly when the
task's terminal state is not success). -/
def resourceVSphereFileUpdate (env : FileUpdateEnv) (task : TaskInfo) :
    Option RemoteError :=
  match env.oldDatastoresRes with
  | some e => some e
  | none =>
    match env.datastoresRes with
    | some e => some e
    | none =>
      match env.oldDatacenterRes with
      | some e => some e
      | none =>
        match env.datacenterRes with
        | some e => some e
        | none =>
          match env.moveCallErr with
          | some e => some e
          | none => taskWait task

/-- Embedding of `modifyLicense` (`resource_vsphere_host.go`): the
`lm.AssignmentManager` error is returned, but the error returned by
`lam.Update` is discarded by the source, so the function then returns
nil unconditionally. -/
def modifyLicense (assignmentMgrRes updateCallRes : Option RemoteError) :
    Option RemoteError :=
  match assignmentMgrRes with
  | some e => some e
  | none =>
    let _ := updateCallRes
    none

/-- Embedding of the mutable-key loop of `resourceVsphereHostUpdate`:
each entry is a key together with `d.HasChange(key)` and the outcome of
its modify routine; unchanged keys are skipped, a failing call stops the
loop with a wrapped error.  The returned list holds the keys whose
modify routine was invoked. -/
def runMutableKeys :
    List (String × Bool × Option RemoteError) →
      List String × Option RemoteError
  | [] => ([], none)
  | (k, hasChangeK, callRes) :: rest =>
    if hasChangeK then
      match callRes with
      | some e =>
        ([k], some (.generic ("error while updating " ++ k ++ ": " ++ e.render)))
      | none =>
        let r := runMutableKeys rest
        (k :: r.1, r.2)
    else runMutableKeys rest

/-- Which of the four CRUD handlers a `schema.Resource` literal sets. -/
structure RegisteredCRUD where
  hasCreate : Bool
  hasRead : Bool
  hasUpdate : Bool
  hasDelete : Bool
deriving DecidableEq

/-- All four CRUD handlers are registered. -/
def registersAllCRUD (r : RegisteredCRUD) : Bool :=
  r.hasCreate && r.hasRead && r.hasUpdate && r.hasDelete

/-- Handlers set on the `schema.Resource` literal of `resourceVSphereFile`
(`resource_vsphere_file.go`): Create, Read, Update, Delete. -/
def resourceVSphereFileCRUD : RegisteredCRUD :=
  { hasCreate := true, hasRead := true, hasUpdate := true, hasDelete := true }

/-- Handlers set on the `schema.Resource` literal of `resourceVsphereHost`
(`resource_vsphere_host.go`): Create, Read, Update, Delete. -/
def resourceVsphereHostCRUD : RegisteredCRUD :=
  { hasCreate := true, hasRead := true, hasUpdate := true, hasDelete := true }

/-- Handlers set on the `schema.Resource` literal of `resourceVsphereNic`
(`resource_vsphere_vnic.go`): Create, Read, Update, Delete. -/
def resourceVsphereNicCRUD : RegisteredCRUD :=
  { hasCreate := true, hasRead := true, hasUpdate := true, hasDelete := true }

/-- Handlers set on the `schema.Resource` literal of
`resourceVSphereComputePolicy` (`resource_vsphere_compute_policy.go`):
Create, Read and Delete only; no Update handler is registered (every
schema field is ForceNew). -/
def resourceVSphereComputePolicyCRUD : RegisteredCRUD :=
  { hasCreate := true, hasRead := true, hasUpdate := false, hasDelete := true }

/-- Oracle outcomes for `resourceVSphereFileDelete`
(`resource_vsphere_file.go`): `fileDatastores`, the `getDatacenter`
outcome (discarded with `dc, _ :=` by the source), and the
`fm.DeleteDatastoreFile` call error. -/
structure FileDeleteEnv where
  datastoresRes : Option RemoteError
  datacenterRes : Option RemoteError
  deleteCallErr : Option RemoteError
deriving DecidableEq

/-- Embedding of `resourceVSphereFileDelete`: after the lookups (the
`getDatacenter` error is discarded) and the delete call, the handler
blocks on `task.WaitForResult` and returns its error. -/
def resourceVSphereFileDelete (env : FileDeleteEnv) (task : TaskInfo) :
    Option RemoteError :=
  match env.datastoresRes with
  | some e => some e
  | none =>
    let _ := env.datacenterRes
    match env.deleteCallErr with
    | some e => some e
    | none => taskWait task

/-- Embedding of `fileCopy` (`resource_vsphere_file.go`): the
`fileCreateDir` outcome, the two `getDatacenter` outcomes (both
discarded with `sdc, _ :=` and `ddc, _ :=` by the source), the
`fm.CopyDatastoreFile` call error, then `task.WaitForResult`. -/
def fileCopy (createDirRes sourceDatacenterRes destDatacenterRes
    copyCallErr : Option RemoteError) (task : TaskInfo) :
    Option RemoteError :=
  match createDirRes with
  | some e => some e
  | none =>
    let _ := sourceDatacenterRes
    let _ := destDatacenterRes
    match copyCallErr with
    | some e => some e
    | none => taskWait task

/-- Embedding of `handleReconnect` (`resource_vsphere_host.go`): the
`host.Reconnect` call error, then `task.Wait`, then `task.Properties`,
then the `"success"` check on the terminal state. -/
def handleReconnect (st : ResourceState)
    (reconnectCallErr : Option RemoteError) (task : TaskInfo)
    (taskPropsRes : Option RemoteError) : Option RemoteError :=
  match reconnectCallErr with
  | some e => some e
  | none =>
    match taskWait task with
    | some e =>
      some (.generic ("Error while waiting for host (" ++ st.id ++
        ") to reconnect: " ++ e.render))
    | none =>
      match taskPropsRes with
      | some e => some e
      | none =>
        if task.state != "success" then
          some (.generic ("Error while reconnecting host(" ++ st.id ++ "): " ++
            task.errorMsg))
        else none

/-- Oracle outcomes for `resourceVsphereHostDelete`
(`resource_vsphere_host.go`): `hostsystem.FromID`,
`hostsystem.EnterMaintenanceMode`, the `hs.Destroy` call error, and
`task.Properties`. -/
structure HostDeleteEnv where
  fromIDRes : Option RemoteError
  maintenanceRes : Option RemoteError
  destroyCallErr : Option RemoteError
  taskPropsRes : Option RemoteError
deriving DecidableEq

/-- Embedding of `resourceVsphereHostDelete`: enter maintenance mode,
launch the destroy task, block on `task.Wait`, fetch the task info and
fail unless its state is `"success"`. -/
def resourceVsphereHostDelete (env : HostDeleteEnv) (st : ResourceState)
    (task : TaskInfo) : Option RemoteError :=
  match env.fromIDRes with
  | some e => some e
  | none =>
    match env.maintenanceRes with
    | some e =>
      some (.generic ("error while putting host to maintenance mode: " ++
        e.render))
    | none =>
      match env.destroyCallErr with
      | some e => some e
      | none =>
        match taskWait task with
        | some e =>
          some (.generic ("Error while waiting for host (" ++ st.id ++
            ") to be removed: " ++ e.render))
        | none =>
          match env.taskPropsRes with
          | some e => some e
          | none =>
            if task.state != "success" then
              some (.generic ("Error while removing host(" ++ st.id ++ "): " ++
                task.errorMsg))
            else none

/-- Oracle outcomes for `modifyCluster` (`resource_vsphere_host.go`):
`clustercomputeresource.FromID` on the new cluster, `hostsystem.FromID`,
`EnterMaintenanceMode`, the `newCluster.MoveInto` call error,
`ExitMaintenanceMode`, and `task.Properties`. -/
structure ModifyClusterEnv where
  newClusterFromIDRes : Option RemoteError
  hostFromIDRes : Option RemoteError
  enterMaintenanceRes : Option RemoteError
  moveIntoCallErr : Option RemoteError
  exitMaintenanceRes : Option RemoteError
  taskPropsRes : Option RemoteError
deriving DecidableEq

/-- Embedding of `modifyCluster`: move the host into the new cluster,
block on `task.Wait` (whose return value the source discards), leave
maintenance mode, fetch the task info and fail unless its state is
`"success"`. -/
def modifyCluster (env : ModifyClusterEnv) (newClusterID : String)
    (task : TaskInfo) : Option RemoteError :=
  match env.newClusterFromIDRes with
  | some e => some e
  | none =>
    match env.hostFromIDRes with
    | some e => some e
    | none =>
      match env.enterMaintenanceRes with
      | some e =>
        some (.generic ("error while putting host to maintenance mode: " ++
          e.render))
      | none =>
        match env.moveIntoCallErr with
        | some e => some e
        | none =>
          match env.exitMaintenanceRes with
          | some e =>
            some (.generic ("error while taking host out of maintenance mode: " ++
              e.render))
          | none =>
            match env.taskPropsRes with
            | some e => some e
            | none =>
              if task.state != "success" then
                some (.generic ("Error while moving host to new cluster (" ++
                  newClusterID ++ "): " ++ task.errorMsg))
              else none

/-- Oracle outcomes for `resourceVSphereFileCreate`
(`resource_vsphere_file.go`): `fileDatastores` (and whether it yielded a
source datastore), the components of the `fileCopy` call on the copy
branch, the `client.Client.UploadFile` error on the upload branch, and
the destination datastore's reference value used to build the id. -/
structure FileCreateEnv where
  datastoresRes : Option RemoteError
  hasSourceDatastore : Bool
  createDirRes : Option RemoteError
  sourceDatacenterRes : Option RemoteError
  destDatacenterRes : Option RemoteError
  copyCallErr : Option RemoteError
  copyTask : TaskInfo
  uploadRes : Option RemoteError
  destDatastoreRef : String
deriving DecidableEq

/-- Embedding of `resourceVSphereFileCreate` (`resource_vsphere_file.go`):
when a source datastore was resolved and `source_file` is non-empty the
handler copies via `fileCopy`, otherwise it uploads; on success it sets
the id to `"[<datastore ref>] <destination_file>"`. -/
def resourceVSphereFileCreate (env : FileCreateEnv) (st : ResourceState) :
    ResourceState × Option RemoteError :=
  match env.datastoresRes with
  | some e => (st, some e)
  | none =>
    let df := getStr st "destination_file"
    let sf := getStr st "source_file"
    if env.hasSourceDatastore && sf != "" then
      match fileCopy env.createDirRes env.sourceDatacenterRes
          env.destDatacenterRes env.copyCallErr env.copyTask with
      | some e => (st, some e)
      | none =>
        ({ st with id := "[" ++ env.destDatastoreRef ++ "] " ++ df }, none)
    else
      match env.uploadRes with
      | some e => (st, some e)
      | none =>
        ({ st with id := "[" ++ env.destDatastoreRef ++ "] " ++ df }, none)

/-- Oracle outcomes for `resourceVsphereNicCreate`
(`resource_vsphere_vnic.go`): the `getNicSpecFromSchema` outcome (local
schema validation, not an SDK call; only its result drives the handler's
control flow), `hostsystem.FromID`, `cm.NetworkSystem`,
`hns.AddVirtualNic` (yielding the created nic id), the post-create
`getVnicFromHost` lookup, and the `getVnicFromHost` lookup inside the
delegated Read. -/
structure NicCreateEnv where
  nicSpecRes : Option RemoteError
  hostFromIDRes : Option RemoteError
  networkSystemRes : Option RemoteError
  addVirtualNicRes : Except RemoteError String
  postCreateVnicRes : Except RemoteError VnicInfo
  readVnicRes : Except RemoteError VnicInfo
deriving DecidableEq

/-- Embedding of `resourceVsphereNicCreate`: on success of
`AddVirtualNic` the id is set to `hostID + "_" + nicID`; the error of
the post-create `getVnicFromHost` is only logged by the source, which
then dereferences the nil vNIC (`vnic.Spec.Mac`) and panics (`none`);
on a successful lookup the mac and mtu are written and the handler
delegates to `resourceVsphereNicRead`. -/
def resourceVsphereNicCreate (env : NicCreateEnv) (st : ResourceState) :
    Option (ResourceState × Option RemoteError) :=
  let hostID := getStr st "host"
  match env.nicSpecRes with
  | some e => some (st, some e)
  | none =>
    match env.hostFromIDRes with
    | some e => some (st, some e)
    | none =>
      match env.networkSystemRes with
      | some e => some (st, some e)
      | none =>
        match env.addVirtualNicRes with
        | .error e => some (st, some e)
        | .ok nicID =>
          let st := { st with
            id := String.mk (nicIDCompose hostID.data nicID.data) }
          match env.postCreateVnicRes with
          | .error _ => none
          | .ok v =>
            let st := setAttr st "mac" (.s v.mac)
            let st := setAttr st "mtu" (.i v.mtu)
            resourceVsphereNicRead env.readVnicRes st

/-- Embedding of `resourceVsphereNicUpdate` (`resource_vsphere_vnic.go`):
the handler performs no call of its own and delegates to
`resourceVsphereNicRead`. -/
def resourceVsphereNicUpdate (readVnicRes : Except RemoteError VnicInfo)
    (st : ResourceState) : Option (ResourceState × Option RemoteError) :=
  resourceVsphereNicRead readVnicRes st

/-- Embedding of `resourceVsphereNicDelete` (`resource_vsphere_vnic.go`):
the handler performs no call and returns nil. -/
def resourceVsphereNicDelete (st : ResourceState) :
    ResourceState × Option RemoteError :=
  (st, none)

/-- Embedding of `resourceVSphereComputePolicyCreate`
(`resource_vsphere_compute_policy.go`): the create spec (including the
capability name built by `policyTypeToCapability`) is sent to
`policyClient.Create`, whose outcome is the oracle; on success the id is
set to the returned policy id and the handler delegates to
`resourceVSphereComputePolicyRead`. -/
def resourceVSphereComputePolicyCreate
    (createRes : Except RemoteError String)
    (readRes : Except RemoteError PolicySummary)
    (st : ResourceState) : ResourceState × Option RemoteError :=
  let capabilityFullName :=
    policyTypeToCapability (getStr st "policy_type").data
  let _ := capabilityFullName
  match createRes with
  | .error e => (st, some e)
  | .ok policyID =>
    resourceVSphereComputePolicyRead readRes { st with id := policyID }

/-- Embedding of `resourceVSphereComputePolicyDelete`
(`resource_vsphere_compute_policy.go`): the `policyClient.Delete` error
is returned; otherwise nil. -/
def resourceVSphereComputePolicyDelete (deleteRes : Option RemoteError)
    (st : ResourceState) : ResourceState × Option RemoteError :=
  match deleteRes with
  | some e => (st, some e)
  | none => (st, none)

/-- Oracle outcomes for `resourceVsphereHostUpdate`
(`resource_vsphere_host.go`), in source order: `hostsystem.FromID`,
`hostsystem.GetConnectionState`, the components of a possible
`handleReconnect` and `handleDisconnect`, the components of
`modifyLicense` and `modifyCluster`, and the environment of the final
`resourceVsphereHostRead`. -/
structure HostUpdateEnv where
  fromIDRes : Option RemoteError
  connStateRes : Except RemoteError HostSystemConnectionState
  reconnectCallErr : Option RemoteError
  reconnectTask : TaskInfo
  reconnectPropsRes : Option RemoteError
  disconnectCallErr : Option RemoteError
  disconnectTask : TaskInfo
  disconnectPropsRes : Option RemoteError
  licenseAssignmentMgrRes : Option RemoteError
  licenseUpdateCallRes : Option RemoteError
  clusterEnv : ModifyClusterEnv
  clusterTask : TaskInfo
  readEnv : HostReadEnv
deriving DecidableEq

/-- Embedding of `resourceVsphereHostUpdate`: the desired connection
state comes from the pending change (or the current attribute), the
actual state from the lookup; `shouldReconnect` picks reconnect (1),
disconnect (-1) or nothing (0); then the mutable-key loop
(`runMutableKeys`) runs `modifyLicense` and `modifyCluster` for the
changed keys in one of the two Go map iteration orders (`licenseFirst`),
and on success the handler delegates to `resourceVsphereHostRead`. -/
def resourceVsphereHostUpdate (env : HostUpdateEnv)
    (hasChangeConnected newConnected hasChangeConnKey hasChangeLicense
      hasChangeCluster licenseFirst : Bool)
    (st : ResourceState) : ResourceState × Option RemoteError :=
  let desired :=
    if hasChangeConnected then newConnected else getBoolAttr st "connected"
  match env.fromIDRes with
  | some e => (st, some e)
  | none =>
    match env.connStateRes with
    | .error e => (st, some e)
    | .ok actual =>
      let reconnect := hasChangeConnKey
      match shouldReconnect actual desired reconnect with
      | (_, some e) => (st, some e)
      | (reconnectNeeded, none) =>
        let connectRes : Option RemoteError :=
          if reconnectNeeded = 1 then
            handleReconnect st env.reconnectCallErr env.reconnectTask
              env.reconnectPropsRes
          else if reconnectNeeded = -1 then
            handleDisconnect st env.disconnectCallErr env.disconnectTask
              env.disconnectPropsRes
          else none
        match connectRes with
        | some e => (st, some e)
        | none =>
          let licenseEntry := ("license", hasChangeLicense,
            modifyLicense env.licenseAssignmentMgrRes env.licenseUpdateCallRes)
          let clusterEntry := ("cluster", hasChangeCluster,
            modifyCluster env.clusterEnv (getStr st "cluster") env.clusterTask)
          let entries :=
            if licenseFirst then [licenseEntry, clusterEntry]
            else [clusterEntry, licenseEntry]
          match (runMutableKeys entries).2 with
          | some e => (st, some e)
          | none => resourceVsphereHostRead env.readEnv st

/-- C8: for every combination of actual connection state, desired state
and reconnect flag, `shouldReconnect` returns one of -1, 0, 1 together
with a nil error; the final branch returning `(255, error)` is
unreachable. -/
theorem shouldReconnect_total (a : HostSystemConnectionState) (d r : Bool) :
    (shouldReconnect a d r).2 = none ∧
      ((shouldReconnect a d r).1 = -1 ∨ (shouldReconnect a d r).1 = 0 ∨
        (shouldReconnect a d r).1 = 1) := by
  cases a <;> cases d <;> cases r <;> decide

/-- C3 counterexample: with the actual state NotResponding, desired state
connected and no connection key changed, the claimed no-action clause
(host not Disconnected) demands result 0, but `shouldReconnect` returns
1 (the not-Connected reconnect branch fires first). -/
theorem shouldReconnect_notResponding_noop_refuted :
    shouldReconnect .notResponding true false = (1, none) ∧
      ¬ shouldReconnect .notResponding true false = (0, none) := by decide

/-- C3 amended: reconnect (1) when the desired state is connected and a
connection key changed or the actual state is not Connected; disconnect
(-1) when the desired state is disconnected and the actual state is not
Disconnected; no action (0) when the desired state is connected with the
host Connected and no connection key changed, or when the desired state
is disconnected and the host is already Disconnected. -/
theorem shouldReconnect_decision_table (a : HostSystemConnectionState)
    (d r : Bool) :
    (d = true → (r = true ∨ a ≠ .connected) → shouldReconnect a d r = (1, none)) ∧
      (d = false → a ≠ .disconnected → shouldReconnect a d r = (-1, none)) ∧
      (d = true → a = .connected → r = false → shouldReconnect a d r = (0, none)) ∧
      (d = false → a = .disconnected → shouldReconnect a d r = (0, none)) := by
  cases a <;> cases d <;> cases r <;> refine ⟨?_, ?_, ?_, ?_⟩ <;> decide

/-- Witness for the amended decision table at concrete inputs. -/
theorem shouldReconnect_decision_table_witness :
    shouldReconnect .notResponding true false = (1, none) ∧
      shouldReconnect .connected false false = (-1, none) ∧
      shouldReconnect .connected true false = (0, none) ∧
      shouldReconnect .disconnected false false = (0, none) :=
  ⟨(shouldReconnect_decision_table .notResponding true false).1 rfl
      (Or.inr (by decide)),
    (shouldReconnect_decision_table .connected false false).2.1 rfl (by decide),
    (shouldReconnect_decision_table .connected true false).2.2.1 rfl rfl rfl,
    (shouldReconnect_decision_table .disconnected false false).2.2.2 rfl rfl⟩

/-- C9: for every policy-type string containing no dot,
`capabilityToPolicyType` inverts `policyTypeToCapability`, so the
policy type written at Create is recovered unchanged by Read. -/
theorem policyType_capability_roundtrip (t : List Char) (h : '.' ∉ t) :
    capabilityToPolicyType (policyTypeToCapability t) = t := by
  have hbase : policyTypeToCapability t =
      "com.vmware.vcenter.compute.policies.capabilities".data ++ '.' :: t := by
    show capabilityBase ++ t = _
    rw [show capabilityBase =
      "com.vmware.vcenter.compute.policies.capabilities".data ++ ['.'] from rfl]
    rw [List.append_assoc]
    rfl
  rw [capabilityToPolicyType, hbase, lastTokD_splitOnChar_append_sep _ _ _ h]

/-- Witness for the capability round trip on one allowed policy type. -/
theorem policyType_capability_roundtrip_witness :
    '.' ∉ "vm_host_anti_affinity".data ∧
      capabilityToPolicyType (policyTypeToCapability "vm_host_anti_affinity".data) =
        "vm_host_anti_affinity".data :=
  ⟨by decide, policyType_capability_roundtrip _ (by decide)⟩

/-- C10 counterexample: with an underscore-free host id but a nic id
containing an underscore, the Read decomposition does not recover the
original pair: the nic id is truncated at its first underscore. -/
theorem nicID_roundtrip_fails_for_underscored_nicID :
    '_' ∉ "host-10".data ∧
      nicIDDecompose (nicIDCompose "host-10".data "vmk_0".data) =
        some ("host-10".data, "vmk".data) ∧
      ("vmk".data : List Char) ≠ "vmk_0".data := by decide

/-- C10 amended: for every hostID and nicID each containing no
underscore, the decomposition recovers exactly the original pair, and an
id containing no underscore makes the token access at index 1 out of
range. -/
theorem nicID_compose_decompose (hostID nicID : List Char)
    (hh : '_' ∉ hostID) (hn : '_' ∉ nicID) :
    nicIDDecompose (nicIDCompose hostID nicID) = some (hostID, nicID) ∧
      ∀ tfNicID : List Char, '_' ∉ tfNicID → nicIDDecompose tfNicID = none := by
  constructor
  · rw [nicIDCompose, nicIDDecompose, splitOnChar_append_sep _ _ _ hh,
      splitOnChar_of_not_mem _ _ hn]
  · intro tf htf
    rw [nicIDDecompose, splitOnChar_of_not_mem _ _ htf]

/-- Witness for the vNIC id round trip at concrete inputs. -/
theorem nicID_compose_decompose_witness :
    nicIDDecompose (nicIDCompose "host-10".data "vmk0".data) =
        some ("host-10".data, "vmk0".data) ∧
      nicIDDecompose "host-10".data = none :=
  ⟨(nicID_compose_decompose "host-10".data "vmk0".data (by decide) (by decide)).1,
    (nicID_compose_decompose "host-10".data "vmk0".data (by decide)
      (by decide)).2 _ (by decide)⟩

/-- C7 counterexample: the compute-policy resource does not register all
four CRUD handlers (its Update handler is absent). -/
theorem computePolicy_not_all_crud :
    registersAllCRUD resourceVSphereComputePolicyCRUD = false := by decide

/-- C7 amended: the file, host and vNIC resources register all four CRUD
handlers; the compute-policy resource registers Create, Read and Delete
but no Update handler. -/
theorem resource_crud_registration :
    registersAllCRUD resourceVSphereFileCRUD = true ∧
      registersAllCRUD resourceVsphereHostCRUD = true ∧
      registersAllCRUD resourceVsphereNicCRUD = true ∧
      resourceVSphereComputePolicyCRUD =
        { hasCreate := true, hasRead := true, hasUpdate := false,
          hasDelete := true } := by decide

/-- C6 counterexample: with changes reported for both keys and the
first-iterated modify routine (here license-first, one of Go's two
possible map iteration orders) failing, the loop returns early and the
cluster routine is not invoked even though its key changed, refuting
"invoked if and only if a change is reported". -/
theorem mutableKeys_failing_routine_skips_rest :
    "cluster" ∉ (runMutableKeys
        [("license", true, some (.generic "update failed")),
          ("cluster", true, none)]).1 ∧
      (runMutableKeys
        [("license", true, some (.generic "update failed")),
          ("cluster", true, none)]).2 =
        some (.generic "error while updating license: update failed") := by
  decide

/-- C6 amended: in the host Update mutable-key loop, a key with no
reported change never triggers its modify routine (regardless of the
call outcomes); when every invoked modify routine succeeds, a routine is
invoked iff Terraform reports a change to its key (shown for both
possible Go map iteration orders); and a failing routine aborts the
loop, so a later-iterated changed key's routine is not invoked. -/
theorem hostUpdate_modify_iff_change (hcLicense hcCluster : Bool) :
    ((("license" ∈ (runMutableKeys
          [("license", hcLicense, none), ("cluster", hcCluster, none)]).1) ↔
        hcLicense = true) ∧
      (("cluster" ∈ (runMutableKeys
          [("license", hcLicense, none), ("cluster", hcCluster, none)]).1) ↔
        hcCluster = true) ∧
      (("license" ∈ (runMutableKeys
          [("cluster", hcCluster, none), ("license", hcLicense, none)]).1) ↔
        hcLicense = true) ∧
      (("cluster" ∈ (runMutableKeys
          [("cluster", hcCluster, none), ("license", hcLicense, none)]).1) ↔
        hcCluster = true)) ∧
      (∀ resLicense resCluster : Option RemoteError,
        (hcLicense = false → "license" ∉ (runMutableKeys
            [("license", hcLicense, resLicense),
              ("cluster", hcCluster, resCluster)]).1) ∧
          (hcCluster = false → "cluster" ∉ (runMutableKeys
            [("license", hcLicense, resLicense),
              ("cluster", hcCluster, resCluster)]).1)) ∧
      ∀ e : RemoteError,
        ("cluster" ∉ (runMutableKeys
          [("license", true, some e), ("cluster", true, none)]).1) ∧
          ("license" ∉ (runMutableKeys
            [("cluster", true, some e), ("license", true, none)]).1) := by
  refine ⟨?_, ?_, ?_⟩
  · cases hcLicense <;> cases hcCluster <;> refine ⟨?_, ?_, ?_, ?_⟩ <;> decide
  · intro resLicense resCluster
    cases hcLicense <;> cases hcCluster <;>
      cases resLicense <;> cases resCluster <;>
        refine ⟨?_, ?_⟩ <;> simp [runMutableKeys]
  · intro e
    refine ⟨?_, ?_⟩ <;> simp [runMutableKeys]

/-- Witness for the mutable-key loop at concrete change flags. -/
theorem hostUpdate_modify_iff_change_witness :
    "license" ∈ (runMutableKeys
        [("license", true, none), ("cluster", false, none)]).1 ∧
      "cluster" ∉ (runMutableKeys
        [("license", true, none), ("cluster", false, none)]).1 ∧
      "cluster" ∉ (runMutableKeys
        [("license", true, some (.generic "denied")),
          ("cluster", true, none)]).1 :=
  ⟨(hostUpdate_modify_iff_change true false).1.1.mpr rfl,
    ((hostUpdate_modify_iff_change true false).2.1 none none).2 rfl,
    ((hostUpdate_modify_iff_change true true).2.2 (.generic "denied")).1⟩

/-- C1: each Read handler clears the resource id and returns nil when the
remote lookup fails with its not-found fault: a
`DatastoreNoSuchFileError` from `Stat` for files, a SOAP
`ManagedObjectNotFound` fault from `FromID` for hosts, and a vAPI
`NotFound` from `Get` for compute policies. -/
theorem read_not_found_clears_id :
    (∀ st : ResourceState,
      resourceVSphereFileRead none (some .datastoreNoSuchFile) st =
        ({ st with id := "" }, none)) ∧
      (∀ (env : HostReadEnv) (st : ResourceState), st.id ≠ "" →
        env.fromIDRes = some .soapManagedObjectNotFound →
        resourceVsphereHostRead env st = ({ st with id := "" }, none)) ∧
      (∀ st : ResourceState,
        resourceVSphereComputePolicyRead (.error .vapiNotFound) st =
          ({ st with id := "" }, none)) := by
  refine ⟨fun st => rfl, ?_, fun st => rfl⟩
  intro env st hid hfrom
  have h1 : (st.id == "") = false := by
    simp [hid]
  simp [resourceVsphereHostRead, h1, hfrom, isSoapFault,
    isManagedObjectNotFoundFault]

/-- Witness for the not-found handling at concrete inputs. -/
theorem read_not_found_clears_id_witness :
    resourceVsphereHostRead
        { fromIDRes := some .soapManagedObjectNotFound, propsRes := none,
          parentCluster := none, connStateRes := .ok .connected,
          assignmentMgrRes := none, queryAssignedRes := .ok [] }
        { id := "host-10", attrs := [] } =
      ({ id := "", attrs := [] }, none) :=
  read_not_found_clears_id.2.1 _ _ (by decide) rfl

theorem getAttr_setAttr (st : ResourceState) (k k' : String) (v : Attr) :
    getAttr (setAttr st k v) k' = if k == k' then some v else getAttr st k' := by
  cases h : (k == k') with
  | true => simp [getAttr, setAttr, List.find?_cons_of_pos, h]
  | false => simp [getAttr, setAttr, List.find?_cons_of_neg, h]

/-- C5 (code bug evidence): when the host's connection state is
Disconnected, host Read leaves the `"connected"` attribute untouched and
instead writes `false` under the misspelled key `"conencted"`. -/
theorem hostRead_disconnected_misspells_connected (env : HostReadEnv)
    (st : ResourceState) (hid : st.id ≠ "")
    (hfrom : env.fromIDRes = none) (hprops : env.propsRes = none)
    (hconn : env.connStateRes = .ok .disconnected) :
    getAttr (resourceVsphereHostRead env st).1 "connected" =
        getAttr st "connected" ∧
      getAttr (resourceVsphereHostRead env st).1 "conencted" =
        some (.b false) := by
  obtain ⟨f, p, pc, cs, am, qa⟩ := env
  simp only at hfrom hprops hconn
  subst hfrom hprops hconn
  have h1 : (st.id == "") = false := by simp [hid]
  cases pc <;> cases am <;> cases qa <;>
    simp [resourceVsphereHostRead, h1, getAttr_setAttr] <;>
      split <;> simp [getAttr_setAttr]

/-- Witness for the misspelled-key behaviour at a concrete input. -/
theorem hostRead_disconnected_misspells_connected_witness :
    getAttr (resourceVsphereHostRead
        { fromIDRes := none, propsRes := none, parentCluster := some "dom-c7",
          connStateRes := .ok .disconnected, assignmentMgrRes := none,
          queryAssignedRes := .ok [] }
        { id := "host-10", attrs := [] }).1 "connected" =
      getAttr { id := "host-10", attrs := ([] : List (String × Attr)) } "connected" ∧
      getAttr (resourceVsphereHostRead
        { fromIDRes := none, propsRes := none, parentCluster := some "dom-c7",
          connStateRes := .ok .disconnected, assignmentMgrRes := none,
          queryAssignedRes := .ok [] }
        { id := "host-10", attrs := [] }).1 "conencted" = some (.b false) :=
  hostRead_disconnected_misspells_connected _ _ (by decide) rfl rfl rfl

/-- C4 (code bug evidence): host Create evaluates
`d.Get("forced").(bool)` (resource_vsphere_host.go:194) on every
execution that passes the license check; `"forced"` is not a key of the
host schema (which declares `"force"`), so the assertion panics before
the `AddHost` task is launched and the handler's own block-and-fail task
logic (lines 199-210) is unreachable.  Every other modelled
task-launching handler (file move/copy/delete, host
reconnect/disconnect/destroy/cluster-move) blocks on the launched task
(modelled by consuming the task's terminal info) and returns a non-nil
error whenever the task's terminal state is not success, as the claim
states. -/
theorem task_failure_returns_error :
    (∀ (env : HostCreateEnv) (st : ResourceState) (knownKeys : List String),
      env.clusterFromIDRes = none → env.licenseListRes = .ok knownKeys →
      getStr st "license" ∈ knownKeys →
      resourceVsphereHostCreate env st = none) ∧
      (∀ (env : FileUpdateEnv) (task : TaskInfo),
        env.oldDatastoresRes = none → env.datastoresRes = none →
        env.oldDatacenterRes = none → env.datacenterRes = none →
        env.moveCallErr = none → task.state ≠ "success" →
        (resourceVSphereFileUpdate env task).isSome = true) ∧
      (∀ (createDirRes sourceDatacenterRes destDatacenterRes
          copyCallErr : Option RemoteError) (task : TaskInfo),
        createDirRes = none → copyCallErr = none → task.state ≠ "success" →
        (fileCopy createDirRes sourceDatacenterRes destDatacenterRes
          copyCallErr task).isSome = true) ∧
      (∀ (env : FileDeleteEnv) (task : TaskInfo),
        env.datastoresRes = none → env.deleteCallErr = none →
        task.state ≠ "success" →
        (resourceVSphereFileDelete env task).isSome = true) ∧
      (∀ (st : ResourceState) (task : TaskInfo)
          (taskPropsRes : Option RemoteError), task.state ≠ "success" →
        (handleReconnect st none task taskPropsRes).isSome = true) ∧
      (∀ (st : ResourceState) (task : TaskInfo)
          (taskPropsRes : Option RemoteError), task.state ≠ "success" →
        (handleDisconnect st none task taskPropsRes).isSome = true) ∧
      (∀ (env : HostDeleteEnv) (st : ResourceState) (task : TaskInfo),
        env.fromIDRes = none → env.maintenanceRes = none →
        env.destroyCallErr = none → task.state ≠ "success" →
        (resourceVsphereHostDelete env st task).isSome = true) ∧
      (∀ (env : ModifyClusterEnv) (newClusterID : String) (task : TaskInfo),
        env.newClusterFromIDRes = none → env.hostFromIDRes = none →
        env.enterMaintenanceRes = none → env.moveIntoCallErr = none →
        env.exitMaintenanceRes = none → task.state ≠ "success" →
        (modifyCluster env newClusterID task).isSome = true) := by
  refine ⟨?_, ?_, ?_, ?_, ?_, ?_, ?_, ?_⟩
  · intro env st knownKeys h1 h2 hmem
    obtain ⟨a, b, c, d, e, f⟩ := env
    simp only at h1 h2
    subst h1 h2
    have hfound : knownKeys.any (fun k => k == getStr st "license") = true :=
      List.any_eq_true.mpr ⟨getStr st "license", hmem, beq_self_eq_true _⟩
    have hforced : getBoolChecked hostSchemaKeys st "forced" = none := by
      simp [getBoolChecked, hostSchemaKeys]
    simp [resourceVsphereHostCreate, hfound, hforced]
  · intro env task h1 h2 h3 h4 h5 hstate
    obtain ⟨a, b, c, d, e⟩ := env
    simp only at h1 h2 h3 h4 h5
    subst h1 h2 h3 h4 h5
    simp [resourceVSphereFileUpdate, taskWait, hstate]
  · intro createDirRes sourceDatacenterRes destDatacenterRes copyCallErr
      task h1 h2 hstate
    subst h1 h2
    simp [fileCopy, taskWait, hstate]
  · intro env task h1 h2 hstate
    obtain ⟨a, b, c⟩ := env
    simp only at h1 h2
    subst h1 h2
    simp [resourceVSphereFileDelete, taskWait, hstate]
  · intro st task taskPropsRes hstate
    simp [handleReconnect, taskWait, hstate]
  · intro st task taskPropsRes hstate
    simp [handleDisconnect, taskWait, hstate]
  · intro env st task h1 h2 h3 hstate
    obtain ⟨a, b, c, d⟩ := env
    simp only at h1 h2 h3
    subst h1 h2 h3
    simp [resourceVsphereHostDelete, taskWait, hstate]
  · intro env newClusterID task h1 h2 h3 h4 h5 hstate
    obtain ⟨a, b, c, d, e, f⟩ := env
    simp only at h1 h2 h3 h4 h5
    subst h1 h2 h3 h4 h5
    cases f <;> simp [modifyCluster, taskWait, hstate]

/-- Witness for the task-failure handling (and the host Create panic)
at concrete inputs. -/
theorem task_failure_returns_error_witness :
    resourceVsphereHostCreate
        { clusterFromIDRes := none, licenseListRes := .ok [""],
          addHostCallErr := none,
          taskPropsRes := .ok { state := "error", errorMsg := "bad host" },
          taskResultRef := "HostSystem:host-10",
          readEnv :=
            { fromIDRes := none, propsRes := none,
              parentCluster := none, connStateRes := .ok .connected,
              assignmentMgrRes := none, queryAssignedRes := .ok [] } }
        { id := "", attrs := [] } = none ∧
      (resourceVSphereFileUpdate
        { oldDatastoresRes := none, datastoresRes := none,
          oldDatacenterRes := none, datacenterRes := none,
          moveCallErr := none }
        { state := "error", errorMsg := "disk full" }).isSome = true ∧
      (fileCopy none none none none
        { state := "error", errorMsg := "x" }).isSome = true ∧
      (resourceVSphereFileDelete
        { datastoresRes := none, datacenterRes := none, deleteCallErr := none }
        { state := "error", errorMsg := "x" }).isSome = true ∧
      (handleReconnect { id := "host-10", attrs := [] } none
        { state := "error", errorMsg := "x" } none).isSome = true ∧
      (handleDisconnect { id := "host-10", attrs := [] } none
        { state := "error", errorMsg := "boom" } none).isSome = true ∧
      (resourceVsphereHostDelete
        { fromIDRes := none, maintenanceRes := none, destroyCallErr := none,
          taskPropsRes := none }
        { id := "host-10", attrs := [] }
        { state := "error", errorMsg := "x" }).isSome = true ∧
      (modifyCluster
        { newClusterFromIDRes := none, hostFromIDRes := none,
          enterMaintenanceRes := none, moveIntoCallErr := none,
          exitMaintenanceRes := none, taskPropsRes := none } "dom-c7"
        { state := "error", errorMsg := "x" }).isSome = true :=
  ⟨task_failure_returns_error.1 _ _ [""] rfl rfl (by decide),
    task_failure_returns_error.2.1 _ _ rfl rfl rfl rfl rfl (by decide),
    task_failure_returns_error.2.2.1 none none none none _ rfl rfl (by decide),
    task_failure_returns_error.2.2.2.1 _ _ rfl rfl (by decide),
    task_failure_returns_error.2.2.2.2.1 _ _ none (by decide),
    task_failure_returns_error.2.2.2.2.2.1 _ _ none (by decide),
    task_failure_returns_error.2.2.2.2.2.2.1 _ _ _ rfl rfl rfl (by decide),
    task_failure_returns_error.2.2.2.2.2.2.2 _ _ _ rfl rfl rfl rfl rfl
      (by decide)⟩

/-- C2 counterexample: the vNIC Read handler receives a lookup error that
is not any not-found fault (a generic connection error) and still returns
nil, clearing the resource id instead of propagating the error. -/
theorem nicRead_swallows_non_not_found_error :
    resourceVsphereNicRead (.error (.generic "connection reset"))
        { id := "host-10_vmk0", attrs := [] } =
      some ({ id := "", attrs := [] }, none) := by decide

/-- C2 amended: every modelled handler returns (propagates) the error of
each SDK/remote call whose result it checks, with these exceptions: vNIC
Read treats every lookup error as not-found, clearing the resource ID
and returning nil; vNIC Create only logs the post-create vNIC lookup
error and then panics dereferencing the nil vNIC; host Create only logs
the `AddHost` call error (a site its own `"forced"` panic in any case
makes unreachable); `modifyLicense` discards the error of the
license-assignment `Update` call; file Delete discards its
`getDatacenter` error; and `fileCopy`, on file Create's copy path,
discards its two `getDatacenter` errors.  The discarded outcomes are
absent from the result characterizations below. -/
theorem non_not_found_errors_propagated :
    (∀ (st : ResourceState) (statRes : Option RemoteError) (e : RemoteError),
      resourceVSphereFileRead (some e) statRes st = (st, some e)) ∧
      (∀ (st : ResourceState) (e : RemoteError),
        isDatastoreNoSuchFileFault e = false →
        resourceVSphereFileRead none (some e) st = (st, some e)) ∧
      (∀ (env : FileUpdateEnv) (task : TaskInfo),
        resourceVSphereFileUpdate env task =
          (env.oldDatastoresRes <|> env.datastoresRes <|>
            env.oldDatacenterRes <|> env.datacenterRes <|>
            env.moveCallErr <|> taskWait task)) ∧
      (∀ (env : FileDeleteEnv) (task : TaskInfo),
        resourceVSphereFileDelete env task =
          (env.datastoresRes <|> env.deleteCallErr <|> taskWait task)) ∧
      (∀ (createDirRes sourceDatacenterRes destDatacenterRes
          copyCallErr : Option RemoteError) (task : TaskInfo),
        fileCopy createDirRes sourceDatacenterRes destDatacenterRes
            copyCallErr task =
          (createDirRes <|> copyCallErr <|> taskWait task)) ∧
      (∀ (env : FileCreateEnv) (st : ResourceState) (e : RemoteError),
        env.datastoresRes = some e →
        resourceVSphereFileCreate env st = (st, some e)) ∧
      (∀ (env : FileCreateEnv) (st : ResourceState) (e : RemoteError),
        env.datastoresRes = none → env.hasSourceDatastore = true →
        getStr st "source_file" ≠ "" →
        fileCopy env.createDirRes env.sourceDatacenterRes
          env.destDatacenterRes env.copyCallErr env.copyTask = some e →
        resourceVSphereFileCreate env st = (st, some e)) ∧
      (∀ (env : FileCreateEnv) (st : ResourceState) (e : RemoteError),
        env.datastoresRes = none → env.hasSourceDatastore = false →
        env.uploadRes = some e →
        resourceVSphereFileCreate env st = (st, some e)) ∧
      (∀ (env : HostReadEnv) (st : ResourceState) (e : RemoteError),
        st.id ≠ "" → env.fromIDRes = some e →
        isManagedObjectNotFoundFault e = false →
        resourceVsphereHostRead env st = (st, some e)) ∧
      (∀ (env : HostReadEnv) (st : ResourceState) (e : RemoteError),
        st.id ≠ "" → env.fromIDRes = none → env.propsRes = some e →
        resourceVsphereHostRead env st = (st, some e)) ∧
      (∀ (env : HostReadEnv) (st : ResourceState) (e : RemoteError),
        st.id ≠ "" → env.fromIDRes = none → env.propsRes = none →
        env.connStateRes = .error e →
        (resourceVsphereHostRead env st).2 = some e) ∧
      (∀ (env : HostReadEnv) (st : ResourceState)
          (cs : HostSystemConnectionState) (e : RemoteError),
        st.id ≠ "" → env.fromIDRes = none → env.propsRes = none →
        env.connStateRes = .ok cs → env.assignmentMgrRes = some e →
        (resourceVsphereHostRead env st).2 = some e) ∧
      (∀ (env : HostReadEnv) (st : ResourceState)
          (cs : HostSystemConnectionState) (e : RemoteError),
        st.id ≠ "" → env.fromIDRes = none → env.propsRes = none →
        env.connStateRes = .ok cs → env.assignmentMgrRes = none →
        env.queryAssignedRes = .error e →
        (resourceVsphereHostRead env st).2 = some e) ∧
      (∀ (env : HostCreateEnv) (st : ResourceState) (e : RemoteError),
        env.clusterFromIDRes = some e →
        resourceVsphereHostCreate env st = some (st, some e)) ∧
      (∀ (env : HostCreateEnv) (st : ResourceState) (e : RemoteError),
        env.clusterFromIDRes = none → env.licenseListRes = .error e →
        resourceVsphereHostCreate env st = some (st, some e)) ∧
      (∀ (env : HostCreateEnv) (st : ResourceState) (e : RemoteError),
        resourceVsphereHostCreate { env with addHostCallErr := some e } st =
          resourceVsphereHostCreate { env with addHostCallErr := none } st) ∧
      (∀ (env : HostUpdateEnv) (b1 b2 b3 b4 b5 b6 : Bool)
          (st : ResourceState) (e : RemoteError),
        env.fromIDRes = some e →
        resourceVsphereHostUpdate env b1 b2 b3 b4 b5 b6 st = (st, some e)) ∧
      (∀ (env : HostUpdateEnv) (b1 b2 b3 b4 b5 b6 : Bool)
          (st : ResourceState) (e : RemoteError),
        env.fromIDRes = none → env.connStateRes = .error e →
        resourceVsphereHostUpdate env b1 b2 b3 b4 b5 b6 st = (st, some e)) ∧
      (∀ (k : String) (rest : List (String × Bool × Option RemoteError))
          (e : RemoteError),
        runMutableKeys ((k, true, some e) :: rest) =
          ([k], some (.generic ("error while updating " ++ k ++ ": " ++
            e.render)))) ∧
      (∀ (st : ResourceState) (task : TaskInfo)
          (taskPropsRes : Option RemoteError) (e : RemoteError),
        handleReconnect st (some e) task taskPropsRes = some e) ∧
      (∀ (st : ResourceState) (task : TaskInfo) (e : RemoteError),
        task.state = "success" →
        handleReconnect st none task (some e) = some e) ∧
      (∀ (st : ResourceState) (task : TaskInfo)
          (taskPropsRes : Option RemoteError) (e : RemoteError),
        handleDisconnect st (some e) task taskPropsRes = some e) ∧
      (∀ (st : ResourceState) (task : TaskInfo) (e : RemoteError),
        task.state = "success" →
        handleDisconnect st none task (some e) = some e) ∧
      (∀ (env : HostDeleteEnv) (st : ResourceState) (task : TaskInfo)
          (e : RemoteError),
        env.fromIDRes = some e →
        resourceVsphereHostDelete env st task = some e) ∧
      (∀ (env : HostDeleteEnv) (st : ResourceState) (task : TaskInfo)
          (e : RemoteError),
        env.fromIDRes = none → env.maintenanceRes = some e →
        resourceVsphereHostDelete env st task =
          some (.generic ("error while putting host to maintenance mode: " ++
            e.render))) ∧
      (∀ (env : HostDeleteEnv) (st : ResourceState) (task : TaskInfo)
          (e : RemoteError),
        env.fromIDRes = none → env.maintenanceRes = none →
        env.destroyCallErr = some e →
        resourceVsphereHostDelete env st task = some e) ∧
      (∀ (env : HostDeleteEnv) (st : ResourceState) (task : TaskInfo)
          (e : RemoteError),
        env.fromIDRes = none → env.maintenanceRes = none →
        env.destroyCallErr = none → task.state = "success" →
        env.taskPropsRes = some e →
        resourceVsphereHostDelete env st task = some e) ∧
      (∀ assignmentMgrRes updateCallRes : Option RemoteError,
        modifyLicense assignmentMgrRes updateCallRes = assignmentMgrRes) ∧
      (∀ (env : ModifyClusterEnv) (cid : String) (task : TaskInfo)
          (e : RemoteError),
        env.newClusterFromIDRes = some e →
        modifyCluster env cid task = some e) ∧
      (∀ (env : ModifyClusterEnv) (cid : String) (task : TaskInfo)
          (e : RemoteError),
        env.newClusterFromIDRes = none → env.hostFromIDRes = some e →
        modifyCluster env cid task = some e) ∧
      (∀ (env : ModifyClusterEnv) (cid : String) (task : TaskInfo)
          (e : RemoteError),
        env.newClusterFromIDRes = none → env.hostFromIDRes = none →
        env.enterMaintenanceRes = some e →
        modifyCluster env cid task =
          some (.generic ("error while putting host to maintenance mode: " ++
            e.render))) ∧
      (∀ (env : ModifyClusterEnv) (cid : String) (task : TaskInfo)
          (e : RemoteError),
        env.newClusterFromIDRes = none → env.hostFromIDRes = none →
        env.enterMaintenanceRes = none → env.moveIntoCallErr = some e →
        modifyCluster env cid task = some e) ∧
      (∀ (env : ModifyClusterEnv) (cid : String) (task : TaskInfo)
          (e : RemoteError),
        env.newClusterFromIDRes = none → env.hostFromIDRes = none →
        env.enterMaintenanceRes = none → env.moveIntoCallErr = none →
        env.exitMaintenanceRes = some e →
        modifyCluster env cid task =
          some (.generic ("error while taking host out of maintenance mode: " ++
            e.render))) ∧
      (∀ (env : ModifyClusterEnv) (cid : String) (task : TaskInfo)
          (e : RemoteError),
        env.newClusterFromIDRes = none → env.hostFromIDRes = none →
        env.enterMaintenanceRes = none → env.moveIntoCallErr = none →
        env.exitMaintenanceRes = none → task.state = "success" →
        env.taskPropsRes = some e →
        modifyCluster env cid task = some e) ∧
      (∀ (st : ResourceState) (e : RemoteError),
        isVapiNotFound e = false →
        resourceVSphereComputePolicyRead (.error e) st = (st, some e)) ∧
      (∀ (summary : PolicySummary) (st : ResourceState) (e : RemoteError),
        summary.nameRes = .error e →
        (resourceVSphereComputePolicyRead (.ok summary) st).2 = some e) ∧
      (∀ (summary : PolicySummary) (st : ResourceState) (nm : String)
          (e : RemoteError),
        summary.nameRes = .ok nm → summary.descriptionRes = .error e →
        (resourceVSphereComputePolicyRead (.ok summary) st).2 = some e) ∧
      (∀ (summary : PolicySummary) (st : ResourceState) (nm ds : String)
          (e : RemoteError),
        summary.nameRes = .ok nm → summary.descriptionRes = .ok ds →
        summary.capabilityRes = .error e →
        (resourceVSphereComputePolicyRead (.ok summary) st).2 = some e) ∧
      (∀ (readRes : Except RemoteError PolicySummary) (st : ResourceState)
          (e : RemoteError),
        resourceVSphereComputePolicyCreate (.error e) readRes st =
          (st, some e)) ∧
      (∀ (st : ResourceState) (e : RemoteError),
        resourceVSphereComputePolicyDelete (some e) st = (st, some e)) ∧
      (∀ (st : ResourceState) (e : RemoteError) (pr : List Char × List Char),
        nicIDDecompose st.id.data = some pr →
        resourceVsphereNicRead (.error e) st =
          some ({ st with id := "" }, none)) ∧
      (∀ (env : NicCreateEnv) (st : ResourceState) (e : RemoteError),
        env.nicSpecRes = none → env.hostFromIDRes = some e →
        resourceVsphereNicCreate env st = some (st, some e)) ∧
      (∀ (env : NicCreateEnv) (st : ResourceState) (e : RemoteError),
        env.nicSpecRes = none → env.hostFromIDRes = none →
        env.networkSystemRes = some e →
        resourceVsphereNicCreate env st = some (st, some e)) ∧
      (∀ (env : NicCreateEnv) (st : ResourceState) (e : RemoteError),
        env.nicSpecRes = none → env.hostFromIDRes = none →
        env.networkSystemRes = none → env.addVirtualNicRes = .error e →
        resourceVsphereNicCreate env st = some (st, some e)) ∧
      (∀ (env : NicCreateEnv) (st : ResourceState) (nicID : String)
          (e : RemoteError),
        env.nicSpecRes = none → env.hostFromIDRes = none →
        env.networkSystemRes = none → env.addVirtualNicRes = .ok nicID →
        env.postCreateVnicRes = .error e →
        resourceVsphereNicCreate env st = none) := by
  refine ⟨fun st statRes e => rfl, ?_, ?_, ?_, ?_, ?_, ?_, ?_, ?_, ?_, ?_,
    ?_, ?_, ?_, ?_, ?_, ?_, ?_, ?_, ?_, ?_, ?_, ?_, ?_, ?_, ?_, ?_, ?_, ?_,
    ?_, ?_, ?_, ?_, ?_, ?_, ?_, ?_, ?_, ?_, ?_, ?_, ?_, ?_, ?_, ?_⟩
  · intro st e he
    cases e <;> simp_all [resourceVSphereFileRead, isDatastoreNoSuchFileFault]
  · intro env task
    obtain ⟨a, b, c, d, e⟩ := env
    cases a <;> cases b <;> cases c <;> cases d <;> cases e <;> rfl
  · intro env task
    obtain ⟨a, b, c⟩ := env
    cases a <;> cases b <;> cases c <;> rfl
  · intro createDirRes sourceDatacenterRes destDatacenterRes copyCallErr task
    cases createDirRes <;> cases copyCallErr <;> rfl
  · intro env st e h
    obtain ⟨a, hs, cd, sdc, ddc, cp, ct, up, ref⟩ := env
    simp only at h
    subst h
    rfl
  · intro env st e h1 h2 h3 h4
    obtain ⟨a, hs, cd, sdc, ddc, cp, ct, up, ref⟩ := env
    simp only at h1 h2 h4
    subst h1 h2
    simp [resourceVSphereFileCreate, h3, h4]
  · intro env st e h1 h2 h3
    obtain ⟨a, hs, cd, sdc, ddc, cp, ct, up, ref⟩ := env
    simp only at h1 h2 h3
    subst h1 h2 h3
    simp [resourceVSphereFileCreate]
  · intro env st e hid hfrom hmonf
    have h1 : (st.id == "") = false := by simp [hid]
    cases e <;> simp_all [resourceVsphereHostRead, isSoapFault,
      isManagedObjectNotFoundFault]
  · intro env st e hid h1 h2
    obtain ⟨f, p, pc, cs, am, qa⟩ := env
    simp only at h1 h2
    subst h1 h2
    have hbeq : (st.id == "") = false := by simp [hid]
    simp [resourceVsphereHostRead, hbeq]
  · intro env st e hid h1 h2 h3
    obtain ⟨f, p, pc, cs, am, qa⟩ := env
    simp only at h1 h2 h3
    subst h1 h2 h3
    have hbeq : (st.id == "") = false := by simp [hid]
    cases pc <;> simp [resourceVsphereHostRead, hbeq]
  · intro env st cs0 e hid h1 h2 h3 h4
    obtain ⟨f, p, pc, cs, am, qa⟩ := env
    simp only at h1 h2 h3 h4
    subst h1 h2 h3 h4
    have hbeq : (st.id == "") = false := by simp [hid]
    cases pc <;> cases cs0 <;> simp [resourceVsphereHostRead, hbeq]
  · intro env st cs0 e hid h1 h2 h3 h4 h5
    obtain ⟨f, p, pc, cs, am, qa⟩ := env
    simp only at h1 h2 h3 h4 h5
    subst h1 h2 h3 h4 h5
    have hbeq : (st.id == "") = false := by simp [hid]
    cases pc <;> cases cs0 <;> simp [resourceVsphereHostRead, hbeq]
  · intro env st e h
    obtain ⟨a, b, c, d, f, g⟩ := env
    simp only at h
    subst h
    rfl
  · intro env st e h1 h2
    obtain ⟨a, b, c, d, f, g⟩ := env
    simp only at h1 h2
    subst h1 h2
    rfl
  · intro env st e
    rfl
  · intro env b1 b2 b3 b4 b5 b6 st e h
    obtain ⟨f, cs, rc, rt, rp, dc, dt, dp, lam, lup, ce, ct, re⟩ := env
    simp only at h
    subst h
    rfl
  · intro env b1 b2 b3 b4 b5 b6 st e h1 h2
    obtain ⟨f, cs, rc, rt, rp, dc, dt, dp, lam, lup, ce, ct, re⟩ := env
    simp only at h1 h2
    subst h1 h2
    rfl
  · intro k rest e
    rfl
  · intro st task taskPropsRes e
    rfl
  · intro st task e hstate
    simp [handleReconnect, taskWait, hstate]
  · intro st task taskPropsRes e
    rfl
  · intro st task e hstate
    simp [handleDisconnect, taskWait, hstate]
  · intro env st task e h
    obtain ⟨a, b, c, d⟩ := env
    simp only at h
    subst h
    rfl
  · intro env st task e h1 h2
    obtain ⟨a, b, c, d⟩ := env
    simp only at h1 h2
    subst h1 h2
    rfl
  · intro env st task e h1 h2 h3
    obtain ⟨a, b, c, d⟩ := env
    simp only at h1 h2 h3
    subst h1 h2 h3
    rfl
  · intro env st task e h1 h2 h3 hstate h4
    obtain ⟨a, b, c, d⟩ := env
    simp only at h1 h2 h3 h4
    subst h1 h2 h3 h4
    simp [resourceVsphereHostDelete, taskWait, hstate]
  · intro assignmentMgrRes updateCallRes
    cases assignmentMgrRes <;> rfl
  · intro env cid task e h
    obtain ⟨a, b, c, d, f, g⟩ := env
    simp only at h
    subst h
    rfl
  · intro env cid task e h1 h2
    obtain ⟨a, b, c, d, f, g⟩ := env
    simp only at h1 h2
    subst h1 h2
    rfl
  · intro env cid task e h1 h2 h3
    obtain ⟨a, b, c, d, f, g⟩ := env
    simp only at h1 h2 h3
    subst h1 h2 h3
    rfl
  · intro env cid task e h1 h2 h3 h4
    obtain ⟨a, b, c, d, f, g⟩ := env
    simp only at h1 h2 h3 h4
    subst h1 h2 h3 h4
    rfl
  · intro env cid task e h1 h2 h3 h4 h5
    obtain ⟨a, b, c, d, f, g⟩ := env
    simp only at h1 h2 h3 h4 h5
    subst h1 h2 h3 h4 h5
    rfl
  · intro env cid task e h1 h2 h3 h4 h5 hstate h6
    obtain ⟨a, b, c, d, f, g⟩ := env
    simp only at h1 h2 h3 h4 h5 h6
    subst h1 h2 h3 h4 h5 h6
    simp [modifyCluster, taskWait, hstate]
  · intro st e he
    cases e <;> simp_all [resourceVSphereComputePolicyRead, isVapiNotFound]
  · intro summary st e h
    obtain ⟨n, d, c⟩ := summary
    simp only at h
    subst h
    rfl
  · intro summary st nm e h1 h2
    obtain ⟨n, d, c⟩ := summary
    simp only at h1 h2
    subst h1 h2
    rfl
  · intro summary st nm ds e h1 h2 h3
    obtain ⟨n, d, c⟩ := summary
    simp only at h1 h2 h3
    subst h1 h2 h3
    rfl
  · intro readRes st e
    rfl
  · intro st e
    rfl
  · intro st e pr hpr
    simp [resourceVsphereNicRead, hpr]
  · intro env st e h1 h2
    obtain ⟨ns, hf, nw, av, pc2, rv⟩ := env
    simp only at h1 h2
    subst h1 h2
    rfl
  · intro env st e h1 h2 h3
    obtain ⟨ns, hf, nw, av, pc2, rv⟩ := env
    simp only at h1 h2 h3
    subst h1 h2 h3
    rfl
  · intro env st e h1 h2 h3 h4
    obtain ⟨ns, hf, nw, av, pc2, rv⟩ := env
    simp only at h1 h2 h3 h4
    subst h1 h2 h3 h4
    rfl
  · intro env st nicID e h1 h2 h3 h4 h5
    obtain ⟨ns, hf, nw, av, pc2, rv⟩ := env
    simp only at h1 h2 h3 h4 h5
    subst h1 h2 h3 h4 h5
    rfl

/-- Witness for the error-propagation statement at concrete inputs. -/
theorem non_not_found_errors_propagated_witness :
    resourceVSphereFileRead (some (.generic "lookup failed")) none
        { id := "f", attrs := [] } =
      ({ id := "f", attrs := [] }, some (.generic "lookup failed")) ∧
      resourceVSphereFileRead none (some (.generic "io error"))
          { id := "f", attrs := [] } =
        ({ id := "f", attrs := [] }, some (.generic "io error")) ∧
      resourceVsphereHostRead
          { fromIDRes := some (.soapOther "server fault"), propsRes := none,
            parentCluster := none, connStateRes := .ok .connected,
            assignmentMgrRes := none, queryAssignedRes := .ok [] }
          { id := "host-10", attrs := [] } =
        ({ id := "host-10", attrs := [] }, some (.soapOther "server fault")) :=
  ⟨non_not_found_errors_propagated.1 _ none _,
    non_not_found_errors_propagated.2.1 _ _ (by decide),
    non_not_found_errors_propagated.2.2.2.2.2.2.2.2.1 _ _ _ (by decide) rfl
      (by decide)⟩

end VSphereProvider
